import Mathlib

/-!
# Verification of the bqcdc repository

Shallow embedding of the three programs of the repository:
* `src/mysql/init_mysql.py` — the database provisioner,
* `src/mysql/update_mysql.py` — the continuous mutation driver,
* `src/bigquery/init_bq.py` — the warehouse initializer,
together with proofs of the behavioural claims about them.

Randomness (`secrets.choice`, `random.randint`, `random.uniform`) is modelled
by passing the random draws in as explicit oracle arguments; external services
(the cloud CLI, the MySQL server, the BigQuery client) are modelled by oracle
functions describing their responses, and the side effects issued against them
are recorded as explicit event traces.
-/

namespace Bqcdc

/-! ## Password generation

Embeds `generate_password` from `src/mysql/init_mysql.py` (lines 34–46).
`secrets.choice l` is modelled by indexing `l` at an arbitrary oracle index
reduced modulo the length of `l`, which ranges over exactly the elements of
`l`.
-/

/-- Python `string.ascii_lowercase`. -/
def ascii_lowercase : List Char := "abcdefghijklmnopqrstuvwxyz".data

/-- Python `string.ascii_uppercase`. -/
def ascii_uppercase : List Char := "ABCDEFGHIJKLMNOPQRSTUVWXYZ".data

/-- Python `string.digits`. -/
def asciiDigits : List Char := "0123456789".data

/-- The symbol set `"!@#$%^&*()_+-="` used by `generate_password`. -/
def passwordSymbols : List Char := "!@#$%^&*()_+-=".data

/-- `alphabet = string.ascii_letters + string.digits + "!@#$%^&*()_+-="`
(`string.ascii_letters` is lowercase followed by uppercase). -/
def passwordAlphabet : List Char :=
  ascii_lowercase ++ ascii_uppercase ++ asciiDigits ++ passwordSymbols

/-- `generate_password(length=24)` from `src/mysql/init_mysql.py:34-46`.
`choice k` is the oracle for the `k`-th `secrets.choice(alphabet)` draw of the
body; `cu`, `cl`, `cd`, `cs` are the oracles for the four category draws that
replace the first four characters. -/
def generate_password (choice : Nat → Nat) (cu cl cd cs : Nat) : List Char :=
  let password :=
    (List.range 24).map fun k =>
      passwordAlphabet.getD (choice k % passwordAlphabet.length) ' '
  ascii_uppercase.getD (cu % ascii_uppercase.length) ' ' ::
    ascii_lowercase.getD (cl % ascii_lowercase.length) ' ' ::
      asciiDigits.getD (cd % asciiDigits.length) ' ' ::
        passwordSymbols.getD (cs % passwordSymbols.length) ' ' ::
          password.drop 4

/-! ## Password file round trip

The provisioner's `main` writes the password verbatim
(`src/mysql/init_mysql.py:312-314`); the mutation driver's `load_password`
(`src/mysql/update_mysql.py:42-51`) reads the file back and applies Python's
`str.strip()`, which removes leading and trailing whitespace characters. -/

/-- The six characters Python's default `str.strip()` removes. -/
def isPySpace (c : Char) : Bool :=
  c == ' ' || c == '\t' || c == '\n' || c == '\x0b' || c == '\x0c' || c == '\r'

/-- Python `s.strip()`: drop whitespace from both ends. -/
def pyStrip (s : List Char) : List Char :=
  ((s.dropWhile isPySpace).reverse.dropWhile isPySpace).reverse

/-- The file content produced by `f.write(password)` in
`src/mysql/init_mysql.py:313-314`. -/
def password_file_write (password : List Char) : List Char := password

/-- `load_password` from `src/mysql/update_mysql.py:42-51`, applied to the
content of an existing password file: `f.read().strip()`. -/
def load_password (fileContent : List Char) : List Char := pyStrip fileContent

/-! ### Helper lemmas about the generated password -/

lemma getD_mod_mem {l : List Char} (h : l ≠ []) (i : Nat) :
    l.getD (i % l.length) ' ' ∈ l := by
  have hlen : 0 < l.length := List.length_pos.mpr h
  have hlt : i % l.length < l.length := Nat.mod_lt _ hlen
  rw [List.getD_eq_getElem _ _ hlt]
  exact List.getElem_mem hlt

lemma mem_passwordAlphabet_of_upper {c : Char} (h : c ∈ ascii_uppercase) :
    c ∈ passwordAlphabet := by
  unfold passwordAlphabet
  simp only [List.mem_append]
  tauto

lemma mem_passwordAlphabet_of_lower {c : Char} (h : c ∈ ascii_lowercase) :
    c ∈ passwordAlphabet := by
  unfold passwordAlphabet
  simp only [List.mem_append]
  tauto

lemma mem_passwordAlphabet_of_digit {c : Char} (h : c ∈ asciiDigits) :
    c ∈ passwordAlphabet := by
  unfold passwordAlphabet
  simp only [List.mem_append]
  tauto

lemma mem_passwordAlphabet_of_symbol {c : Char} (h : c ∈ passwordSymbols) :
    c ∈ passwordAlphabet := by
  unfold passwordAlphabet
  simp only [List.mem_append]
  tauto

/-- Every character of a generated password lies in the generation alphabet. -/
lemma generate_password_mem_alphabet (choice : Nat → Nat) (cu cl cd cs : Nat) :
    ∀ c ∈ generate_password choice cu cl cd cs, c ∈ passwordAlphabet := by
  intro c hc
  unfold generate_password at hc
  simp only [List.mem_cons] at hc
  rcases hc with h | h | h | h | h
  · exact h ▸ mem_passwordAlphabet_of_upper (getD_mod_mem (by decide) _)
  · exact h ▸ mem_passwordAlphabet_of_lower (getD_mod_mem (by decide) _)
  · exact h ▸ mem_passwordAlphabet_of_digit (getD_mod_mem (by decide) _)
  · exact h ▸ mem_passwordAlphabet_of_symbol (getD_mod_mem (by decide) _)
  · have h' := List.mem_of_mem_drop h
    obtain ⟨k, _, rfl⟩ := List.mem_map.mp h'
    exact getD_mod_mem (by decide) _

lemma passwordAlphabet_not_space : ∀ c ∈ passwordAlphabet, isPySpace c = false := by
  decide

lemma dropWhile_eq_self_of_none (l : List Char)
    (h : ∀ c ∈ l, isPySpace c = false) : l.dropWhile isPySpace = l := by
  cases l with
  | nil => rfl
  | cons a t =>
      rw [List.dropWhile_cons]
      rw [h a (List.mem_cons_self a t)]
      simp

lemma pyStrip_eq_self (l : List Char)
    (h : ∀ c ∈ l, isPySpace c = false) : pyStrip l = l := by
  unfold pyStrip
  rw [dropWhile_eq_self_of_none l h,
    dropWhile_eq_self_of_none l.reverse (fun c hc => h c (List.mem_reverse.mp hc)),
    List.reverse_reverse]

/-! ### Claim theorems for the password generator -/

/-- **C3.** Every string produced by `generate_password` is exactly 24
characters long, drawn entirely from uppercase letters, lowercase letters,
digits and the symbol set `!@#$%^&*()_+-=`, contains at least one character of
each of the four categories, and its first four characters are one character
from each category while the remaining 20 characters are exactly the tail of
the original 24-character random draw (the original first four characters are
replaced). -/
theorem c3_generate_password_policy (choice : Nat → Nat) (cu cl cd cs : Nat) :
    (generate_password choice cu cl cd cs).length = 24
    ∧ (∀ c ∈ generate_password choice cu cl cd cs, c ∈ passwordAlphabet)
    ∧ (∃ c ∈ generate_password choice cu cl cd cs, c ∈ ascii_uppercase)
    ∧ (∃ c ∈ generate_password choice cu cl cd cs, c ∈ ascii_lowercase)
    ∧ (∃ c ∈ generate_password choice cu cl cd cs, c ∈ asciiDigits)
    ∧ (∃ c ∈ generate_password choice cu cl cd cs, c ∈ passwordSymbols)
    ∧ (generate_password choice cu cl cd cs).getD 0 ' ' ∈ ascii_uppercase
    ∧ (generate_password choice cu cl cd cs).getD 1 ' ' ∈ ascii_lowercase
    ∧ (generate_password choice cu cl cd cs).getD 2 ' ' ∈ asciiDigits
    ∧ (generate_password choice cu cl cd cs).getD 3 ' ' ∈ passwordSymbols
    ∧ (generate_password choice cu cl cd cs).drop 4 =
        ((List.range 24).map fun k =>
          passwordAlphabet.getD (choice k % passwordAlphabet.length) ' ').drop 4 := by
  have hu : ascii_uppercase.getD (cu % ascii_uppercase.length) ' ' ∈ ascii_uppercase :=
    getD_mod_mem (by decide) _
  have hl : ascii_lowercase.getD (cl % ascii_lowercase.length) ' ' ∈ ascii_lowercase :=
    getD_mod_mem (by decide) _
  have hd : asciiDigits.getD (cd % asciiDigits.length) ' ' ∈ asciiDigits :=
    getD_mod_mem (by decide) _
  have hs : passwordSymbols.getD (cs % passwordSymbols.length) ' ' ∈ passwordSymbols :=
    getD_mod_mem (by decide) _
  refine ⟨?_, generate_password_mem_alphabet choice cu cl cd cs, ?_, ?_, ?_, ?_,
    ?_, ?_, ?_, ?_, ?_⟩
  · unfold generate_password
    simp [List.length_drop]
  · exact ⟨_, by unfold generate_password; exact List.mem_cons_self _ _, hu⟩
  · refine ⟨_, ?_, hl⟩
    unfold generate_password
    simp only [List.mem_cons]
    tauto
  · refine ⟨_, ?_, hd⟩
    unfold generate_password
    simp only [List.mem_cons]
    tauto
  · refine ⟨_, ?_, hs⟩
    unfold generate_password
    simp only [List.mem_cons]
    tauto
  · exact hu
  · exact hl
  · exact hd
  · exact hs
  · unfold generate_password
    rfl

/-- **C10.** Writing a generated password to the password file and reading it
back through the mutation driver's `load_password` (which strips surrounding
whitespace) yields exactly the original password, because the generation
alphabet contains no whitespace characters. -/
theorem c10_password_file_roundtrip (choice : Nat → Nat) (cu cl cd cs : Nat) :
    load_password (password_file_write (generate_password choice cu cl cd cs)) =
      generate_password choice cu cl cd cs := by
  unfold load_password password_file_write
  exact pyStrip_eq_self _ fun c hc =>
    passwordAlphabet_not_space c (generate_password_mem_alphabet choice cu cl cd cs c hc)

/-! ## Prices

Both the seeding step and the mutation step compute
`round(random.uniform(10.0, 500.0), 2)`.  The real number drawn by
`random.uniform` is modelled as a rational oracle argument constrained to
`[10, 500]`, and Python's `round(x, 2)` as rounding to the nearest multiple of
`1/100` (the tie-breaking rule is immaterial to every claim proved here). -/

/-- Python `round(x, 2)` over `ℚ`: round to the nearest hundredth. -/
def round2 (q : ℚ) : ℚ := (round (q * 100) : ℚ) / 100

/-- `q` has at most two decimal digits. -/
def twoDecimals (q : ℚ) : Prop := ∃ m : ℤ, q = (m : ℚ) / 100

lemma twoDecimals_round2 (q : ℚ) : twoDecimals (round2 q) :=
  ⟨round (q * 100), rfl⟩

lemma round2_bounds {q : ℚ} (h10 : 10 ≤ q) (h500 : q ≤ 500) :
    10 ≤ round2 q ∧ round2 q ≤ 500 := by
  have hlo := sub_half_lt_round (q * 100)
  have hhi := round_le_add_half (q * 100)
  have hlb : (1000 : ℤ) ≤ round (q * 100) := by
    have h : (999 : ℤ) < round (q * 100) := by
      exact_mod_cast (by linarith : (999 : ℚ) < (round (q * 100) : ℚ))
    omega
  have hub : round (q * 100) ≤ (50000 : ℤ) := by
    have h : round (q * 100) < (50001 : ℤ) := by
      exact_mod_cast (by linarith : ((round (q * 100) : ℚ)) < 50001)
    omega
  have hlb' : (1000 : ℚ) ≤ (round (q * 100) : ℚ) := by exact_mod_cast hlb
  have hub' : ((round (q * 100) : ℚ)) ≤ 50000 := by exact_mod_cast hub
  unfold round2
  constructor <;> linarith

/-! ## The items table

A row of the `items` table created by `create_database_and_table`
(`src/mysql/init_mysql.py:225-233`).  `DECIMAL(10,2)` prices are modelled as
`ℚ`; the `DATETIME` columns are modelled as abstract clock ticks (`Nat`),
with the database's `CURRENT_TIMESTAMP` / `NOW()` value passed in as an
oracle. -/

structure Row where
  id : Nat
  description : String
  price : ℚ
  created_at : Nat
  updated_at : Nat
deriving DecidableEq

/-- A dummy row used as the default of `List.getD` (never read in bounds). -/
def dummyRow : Row := ⟨0, "", 0, 0, 0⟩

/-- The dict returned by `update_random_record`
(`src/mysql/update_mysql.py:94-100`). -/
structure UpdateResult where
  id : Nat
  description : String
  old_price : ℚ
  new_price : ℚ
  timestamp : Nat
deriving DecidableEq

/-- `update_random_record(cursor, table_name)` from
`src/mysql/update_mysql.py:69-100`.  `record_id` is the oracle for
`random.randint(1, 10)`, `u` the oracle for `random.uniform(10.0, 500.0)`,
`now` the database clock value substituted for `NOW()`, and `clientNow` the
client clock value of `datetime.now()`.  The `SELECT ... WHERE id = record_id`
with `fetchone()` is the first matching row; when no row matches, the function
returns `None` having issued no `UPDATE`; otherwise the single `UPDATE`
statement sets `price` and `updated_at` on every row whose `id` matches.
Returns the table after the statement together with the returned dict. -/
def update_random_record (t : List Row) (record_id : Nat) (u : ℚ)
    (now clientNow : Nat) : List Row × Option UpdateResult :=
  match t.find? (fun r => r.id == record_id) with
  | none => (t, none)
  | some r =>
      let new_price := round2 u
      (t.map fun s =>
        if s.id == record_id then { s with price := new_price, updated_at := now }
        else s,
       some ⟨record_id, r.description, r.price, new_price, clientNow⟩)

lemma update_random_record_of_find?_some {t : List Row} {record_id : Nat}
    {u : ℚ} {now clientNow : Nat} {r : Row}
    (h : t.find? (fun s => s.id == record_id) = some r) :
    update_random_record t record_id u now clientNow =
      (t.map fun s =>
        if s.id == record_id then { s with price := round2 u, updated_at := now }
        else s,
       some ⟨record_id, r.description, r.price, round2 u, clientNow⟩) := by
  unfold update_random_record
  rw [h]

/-- **C2.** For a chosen id that exists in the table (ids unique, as the
`PRIMARY KEY` on `id` guarantees), `update_random_record` updates exactly the
one matching row — same table length, all other rows untouched, and the
matched row keeps its `id`, `description` and `created_at` while `price`
becomes the new value in `[10, 500]` with at most two decimals and
`updated_at` becomes the database clock value — and returns a non-empty
result; for a chosen id with no matching row it returns the table unchanged
and `none`, having performed no update. -/
theorem c2_update_random_record_frame (t : List Row) (record_id : Nat) (u : ℚ)
    (now clientNow : Nat)
    (hnodup : (t.map Row.id).Nodup)
    (hrid : 1 ≤ record_id ∧ record_id ≤ 10)
    (hu : 10 ≤ u ∧ u ≤ 500) :
    ((∃ r ∈ t, r.id = record_id) →
      (update_random_record t record_id u now clientNow).1.length = t.length
      ∧ (∃! j : Fin t.length, (t.get j).id = record_id)
      ∧ (∀ j : Fin t.length,
          ((t.get j).id = record_id →
            (update_random_record t record_id u now clientNow).1.getD j dummyRow =
              { t.get j with price := round2 u, updated_at := now })
          ∧ ((t.get j).id ≠ record_id →
            (update_random_record t record_id u now clientNow).1.getD j dummyRow =
              t.get j))
      ∧ 10 ≤ round2 u ∧ round2 u ≤ 500 ∧ twoDecimals (round2 u)
      ∧ ((update_random_record t record_id u now clientNow).2.isSome = true))
    ∧ ((∀ r ∈ t, r.id ≠ record_id) →
      update_random_record t record_id u now clientNow = (t, none)) := by
  constructor
  · rintro ⟨r0, hr0t, hr0id⟩
    have hfind : (t.find? (fun s => s.id == record_id)).isSome := by
      rw [List.find?_isSome]
      exact ⟨r0, hr0t, by simpa using hr0id⟩
    obtain ⟨r, hr⟩ := Option.isSome_iff_exists.mp hfind
    rw [update_random_record_of_find?_some hr]
    have hinj : ∀ i j : Fin t.length, (t.get i).id = (t.get j).id → i = j := by
      intro i j hij
      have hi : i.val < (t.map Row.id).length := by
        simp
      have hj : j.val < (t.map Row.id).length := by
        simp
      have hg : (t.map Row.id)[i.val] = (t.map Row.id)[j.val] := by
        simp only [List.getElem_map]
        simpa [List.get_eq_getElem] using hij
      exact Fin.ext ((hnodup.getElem_inj_iff).mp hg)
    refine ⟨by simp, ?_, ?_, (round2_bounds hu.1 hu.2).1, (round2_bounds hu.1 hu.2).2,
      twoDecimals_round2 u, rfl⟩
    · obtain ⟨j0, hj0⟩ := List.mem_iff_get.mp hr0t
      refine ⟨j0, show (t.get j0).id = record_id by rw [hj0]; exact hr0id, ?_⟩
      intro y hy
      have hy' : (t.get y).id = record_id := hy
      refine hinj y j0 ?_
      rw [hj0, hr0id]
      exact hy'
    · intro j
      have hjlt : j.val < (t.map fun s =>
          if s.id == record_id then { s with price := round2 u, updated_at := now }
          else s).length := by
        simp
      constructor
      · intro hid
        rw [List.getD_eq_getElem _ _ hjlt]
        simp only [List.getElem_map]
        rw [List.get_eq_getElem] at hid
        simp [hid]
      · intro hid
        rw [List.getD_eq_getElem _ _ hjlt]
        simp only [List.getElem_map]
        rw [List.get_eq_getElem] at hid
        simp [hid]
  · intro hnone
    have hfind : t.find? (fun s => s.id == record_id) = none := by
      rw [List.find?_eq_none]
      intro x hx
      simpa using hnone x hx
    unfold update_random_record
    rw [hfind]

/-- Concrete instantiation of `c2_update_random_record_frame`: a two-row table
with ids 1 and 2, chosen id 1, uniform draw 42. -/
theorem c2_update_random_record_frame_witness :
    (([⟨1, "Wireless Mouse", 20, 0, 0⟩, ⟨2, "USB-C Hub", 30, 0, 0⟩] : List Row).map
        Row.id).Nodup
    ∧ ((1 ≤ 1 ∧ 1 ≤ 10) ∧ ((10 : ℚ) ≤ 42 ∧ (42 : ℚ) ≤ 500))
    ∧ (((∃ r ∈ ([⟨1, "Wireless Mouse", 20, 0, 0⟩, ⟨2, "USB-C Hub", 30, 0, 0⟩] : List Row),
          r.id = 1) →
        (update_random_record [⟨1, "Wireless Mouse", 20, 0, 0⟩, ⟨2, "USB-C Hub", 30, 0, 0⟩]
            1 42 5 7).1.length =
          ([⟨1, "Wireless Mouse", 20, 0, 0⟩, ⟨2, "USB-C Hub", 30, 0, 0⟩] : List Row).length
        ∧ (∃! j : Fin ([⟨1, "Wireless Mouse", 20, 0, 0⟩,
              ⟨2, "USB-C Hub", 30, 0, 0⟩] : List Row).length,
            (([⟨1, "Wireless Mouse", 20, 0, 0⟩, ⟨2, "USB-C Hub", 30, 0, 0⟩] : List Row).get
              j).id = 1)
        ∧ (∀ j : Fin ([⟨1, "Wireless Mouse", 20, 0, 0⟩,
              ⟨2, "USB-C Hub", 30, 0, 0⟩] : List Row).length,
            ((([⟨1, "Wireless Mouse", 20, 0, 0⟩, ⟨2, "USB-C Hub", 30, 0, 0⟩] : List Row).get
                j).id = 1 →
              (update_random_record [⟨1, "Wireless Mouse", 20, 0, 0⟩,
                  ⟨2, "USB-C Hub", 30, 0, 0⟩] 1 42 5 7).1.getD j dummyRow =
                { ([⟨1, "Wireless Mouse", 20, 0, 0⟩,
                    ⟨2, "USB-C Hub", 30, 0, 0⟩] : List Row).get j with
                  price := round2 42, updated_at := 5 })
            ∧ ((([⟨1, "Wireless Mouse", 20, 0, 0⟩,
                  ⟨2, "USB-C Hub", 30, 0, 0⟩] : List Row).get j).id ≠ 1 →
              (update_random_record [⟨1, "Wireless Mouse", 20, 0, 0⟩,
                  ⟨2, "USB-C Hub", 30, 0, 0⟩] 1 42 5 7).1.getD j dummyRow =
                ([⟨1, "Wireless Mouse", 20, 0, 0⟩,
                  ⟨2, "USB-C Hub", 30, 0, 0⟩] : List Row).get j))
        ∧ 10 ≤ round2 42 ∧ round2 42 ≤ 500 ∧ twoDecimals (round2 42)
        ∧ ((update_random_record [⟨1, "Wireless Mouse", 20, 0, 0⟩,
            ⟨2, "USB-C Hub", 30, 0, 0⟩] 1 42 5 7).2.isSome = true))
      ∧ ((∀ r ∈ ([⟨1, "Wireless Mouse", 20, 0, 0⟩,
            ⟨2, "USB-C Hub", 30, 0, 0⟩] : List Row), r.id ≠ 1) →
        update_random_record [⟨1, "Wireless Mouse", 20, 0, 0⟩,
            ⟨2, "USB-C Hub", 30, 0, 0⟩] 1 42 5 7 =
          ([⟨1, "Wireless Mouse", 20, 0, 0⟩, ⟨2, "USB-C Hub", 30, 0, 0⟩], none))) :=
  ⟨by decide, ⟨⟨by norm_num, by norm_num⟩, ⟨by norm_num, by norm_num⟩⟩,
    c2_update_random_record_frame
      [⟨1, "Wireless Mouse", 20, 0, 0⟩, ⟨2, "USB-C Hub", 30, 0, 0⟩] 1 42 5 7
      (by decide) ⟨by norm_num, by norm_num⟩ ⟨by norm_num, by norm_num⟩⟩

/-! ## Seeding

Embeds the seeding portion of `create_database_and_table`
(`src/mysql/init_mysql.py:236-266`): count the rows, truncate when the count
is positive, insert the ten fixed records with fresh random prices, commit
once. The statements issued are recorded as a trace and their effect on the
table state is applied by `applySeedEvents`. -/

/-- The fixed ordered description list (`src/mysql/init_mysql.py:248-253`). -/
def descriptions : List String :=
  ["Wireless Mouse", "Mechanical Keyboard", "USB-C Hub",
   "Laptop Stand", "Webcam HD", "Noise-Canceling Headphones",
   "Portable SSD", "Monitor Light Bar", "Ergonomic Chair",
   "Standing Desk Mat"]

/-- The state-changing statements the seeding step can issue. -/
inductive SeedEv
  | truncate
  | insert (id : Nat) (description : String) (price : ℚ)
  | commit
deriving DecidableEq

/-- `true` exactly on `insert` events. -/
def SeedEv.isInsert : SeedEv → Bool
  | .insert _ _ _ => true
  | _ => false

/-- The statements issued by the seeding step against a table currently
holding `count` rows (`SELECT COUNT(*)`): `TRUNCATE TABLE` iff `count > 0`,
then the ten `INSERT`s of the loop `for i in range(1, 11)` with
`price = round(random.uniform(10.0, 500.0), 2)` and
`desc = descriptions[i - 1]`, then a single `connection.commit()`.
`u i` is the oracle for the uniform draw of loop iteration `i`. -/
def seedEvents (count : Nat) (u : Nat → ℚ) : List SeedEv :=
  (if count > 0 then [SeedEv.truncate] else []) ++
    ((List.range 10).map fun j =>
      SeedEv.insert (j + 1) (descriptions.getD j "") (round2 (u (j + 1)))) ++
    [SeedEv.commit]

/-- Effect of one statement on the table state; `now` is the database clock
value substituted for the `CURRENT_TIMESTAMP` defaults of `created_at` and
`updated_at` (`src/mysql/init_mysql.py:230-231`). -/
def applySeedEv (now : Nat) (t : List Row) : SeedEv → List Row
  | .truncate => []
  | .insert i d p => t ++ [⟨i, d, p, now, now⟩]
  | .commit => t

/-- Effect of a statement sequence on the table state. -/
def applySeedEvents (now : Nat) (t : List Row) (evs : List SeedEv) : List Row :=
  evs.foldl (applySeedEv now) t

/-- The seeding step of `create_database_and_table`, run against table state
`t`: the resulting table and the trace of statements issued. -/
def create_database_and_table_seeding (t : List Row) (u : Nat → ℚ) (now : Nat) :
    List Row × List SeedEv :=
  (applySeedEvents now t (seedEvents t.length u), seedEvents t.length u)

lemma applySeedEvents_append (now : Nat) (t : List Row) (l₁ l₂ : List SeedEv) :
    applySeedEvents now t (l₁ ++ l₂) =
      applySeedEvents now (applySeedEvents now t l₁) l₂ :=
  List.foldl_append _ _ _ _

lemma applySeedEvents_inserts (now : Nat) (u : Nat → ℚ) (l : List Nat)
    (t : List Row) :
    applySeedEvents now t (l.map fun j =>
        SeedEv.insert (j + 1) (descriptions.getD j "") (round2 (u (j + 1)))) =
      t ++ l.map fun j =>
        (⟨j + 1, descriptions.getD j "", round2 (u (j + 1)), now, now⟩ : Row) := by
  induction l generalizing t with
  | nil => simp [applySeedEvents]
  | cons a as ih =>
      simp only [List.map_cons]
      rw [applySeedEvents, List.foldl_cons]
      rw [show List.foldl (applySeedEv now) (applySeedEv now t
          (SeedEv.insert (a + 1) (descriptions.getD a "") (round2 (u (a + 1)))))
          (as.map fun j =>
            SeedEv.insert (j + 1) (descriptions.getD j "") (round2 (u (j + 1)))) =
        applySeedEvents now (applySeedEv now t
          (SeedEv.insert (a + 1) (descriptions.getD a "") (round2 (u (a + 1)))))
          (as.map fun j =>
            SeedEv.insert (j + 1) (descriptions.getD j "") (round2 (u (j + 1))))
        from rfl]
      rw [ih]
      simp [applySeedEv]

lemma filter_isInsert_map (u : Nat → ℚ) (l : List Nat) :
    List.filter SeedEv.isInsert (l.map fun j =>
        SeedEv.insert (j + 1) (descriptions.getD j "") (round2 (u (j + 1)))) =
      l.map fun j =>
        SeedEv.insert (j + 1) (descriptions.getD j "") (round2 (u (j + 1))) := by
  induction l with
  | nil => rfl
  | cons a as ih =>
      rw [List.map_cons, List.filter_cons]
      rw [if_pos (show (SeedEv.insert (a + 1) (descriptions.getD a "")
        (round2 (u (a + 1)))).isInsert = true from rfl), ih]

lemma seedEvents_getLast (count : Nat) (u : Nat → ℚ) :
    (seedEvents count u).getLast? = some SeedEv.commit := by
  rw [seedEvents]
  rcases Nat.eq_zero_or_pos count with h0 | hpos
  · rw [if_neg (by omega), List.nil_append]
    exact List.getLast?_concat _
  · rw [if_pos hpos, List.singleton_append]
    exact List.getLast?_concat _

lemma seedEvents_filter_inserts (count : Nat) (u : Nat → ℚ) :
    (seedEvents count u).filter SeedEv.isInsert =
      (List.range 10).map fun j =>
        SeedEv.insert (j + 1) (descriptions.getD j "") (round2 (u (j + 1))) := by
  rw [seedEvents]
  rcases Nat.eq_zero_or_pos count with h0 | hpos
  · rw [if_neg (by omega), List.nil_append, List.filter_append,
      filter_isInsert_map, show List.filter SeedEv.isInsert [SeedEv.commit] = []
        from rfl, List.append_nil]
  · rw [if_pos hpos, List.singleton_append, List.filter_append, List.filter_cons,
      if_neg (by decide), filter_isInsert_map,
      show List.filter SeedEv.isInsert [SeedEv.commit] = [] from rfl,
      List.append_nil]

lemma seeding_rows (t : List Row) (u : Nat → ℚ) (now : Nat) :
    applySeedEvents now t (seedEvents t.length u) =
      (List.range 10).map fun j =>
        (⟨j + 1, descriptions.getD j "", round2 (u (j + 1)), now, now⟩ : Row) := by
  have hpre : applySeedEvents now t
      (if t.length > 0 then [SeedEv.truncate] else []) = [] := by
    rcases Nat.eq_zero_or_pos t.length with h0 | hpos
    · rw [if_neg (by omega)]
      exact List.length_eq_zero.mp h0
    · rw [if_pos hpos]
      rfl
  rw [seedEvents]
  simp only [applySeedEvents_append]
  rw [hpre, applySeedEvents_inserts]
  rfl

/-- **C1.** The seeding step inserts exactly 10 rows with ids 1 through 10 in
ascending order, each description equal to the corresponding element of the
fixed list, each price in `[10, 500]` with at most two decimal digits; when
the table already contains rows the trace starts with a `TRUNCATE` (and
contains none otherwise), so exactly 10 rows remain afterwards; and exactly
one `commit` is issued, as the final statement after all 10 inserts. -/
theorem c1_seeding_inserts_ten_rows (t : List Row) (u : Nat → ℚ) (now : Nat)
    (hu : ∀ i, 10 ≤ u i ∧ u i ≤ 500) :
    ((create_database_and_table_seeding t u now).1 =
        (List.range 10).map fun j =>
          (⟨j + 1, descriptions.getD j "", round2 (u (j + 1)), now, now⟩ : Row))
    ∧ (create_database_and_table_seeding t u now).1.length = 10
    ∧ ((create_database_and_table_seeding t u now).1.map Row.id =
        [1, 2, 3, 4, 5, 6, 7, 8, 9, 10])
    ∧ ((create_database_and_table_seeding t u now).1.map Row.description =
        descriptions)
    ∧ (∀ r ∈ (create_database_and_table_seeding t u now).1,
        10 ≤ r.price ∧ r.price ≤ 500 ∧ twoDecimals r.price)
    ∧ (t ≠ [] →
        (create_database_and_table_seeding t u now).2.head? = some SeedEv.truncate)
    ∧ (t = [] →
        SeedEv.truncate ∉ (create_database_and_table_seeding t u now).2)
    ∧ ((create_database_and_table_seeding t u now).2.count SeedEv.commit = 1)
    ∧ ((create_database_and_table_seeding t u now).2.getLast? = some SeedEv.commit)
    ∧ ((create_database_and_table_seeding t u now).2.filter SeedEv.isInsert =
        (List.range 10).map fun j =>
          SeedEv.insert (j + 1) (descriptions.getD j "") (round2 (u (j + 1)))) := by
  have hrows := seeding_rows t u now
  refine ⟨hrows, ?_, ?_, ?_, ?_, ?_, ?_, ?_, ?_, ?_⟩
  · rw [show (create_database_and_table_seeding t u now).1 =
      applySeedEvents now t (seedEvents t.length u) from rfl, hrows]
    rfl
  · rw [show (create_database_and_table_seeding t u now).1 =
      applySeedEvents now t (seedEvents t.length u) from rfl, hrows]
    rfl
  · rw [show (create_database_and_table_seeding t u now).1 =
      applySeedEvents now t (seedEvents t.length u) from rfl, hrows]
    rfl
  · intro r hr
    rw [show (create_database_and_table_seeding t u now).1 =
      applySeedEvents now t (seedEvents t.length u) from rfl, hrows] at hr
    obtain ⟨j, _, rfl⟩ := List.mem_map.mp hr
    exact ⟨(round2_bounds (hu (j + 1)).1 (hu (j + 1)).2).1,
      (round2_bounds (hu (j + 1)).1 (hu (j + 1)).2).2, twoDecimals_round2 _⟩
  · intro ht
    have hpos : t.length > 0 := List.length_pos.mpr ht
    rw [show (create_database_and_table_seeding t u now).2 =
      seedEvents t.length u from rfl, seedEvents, if_pos hpos]
    rfl
  · intro ht
    subst ht
    rw [show (create_database_and_table_seeding ([] : List Row) u now).2 =
      seedEvents 0 u from rfl, seedEvents, if_neg (by omega)]
    simp
  · rw [show (create_database_and_table_seeding t u now).2 =
      seedEvents t.length u from rfl, seedEvents]
    rcases Nat.eq_zero_or_pos t.length with h0 | hpos
    · rw [if_neg (by omega)]
      simp [List.count_append, List.count_eq_zero]
    · rw [if_pos hpos]
      simp [List.count_append, List.count_eq_zero]
  · exact seedEvents_getLast t.length u
  · exact seedEvents_filter_inserts t.length u

/-- Concrete instantiation of `c1_seeding_inserts_ten_rows`: seeding an empty
table with the constant uniform draw 42. -/
theorem c1_seeding_inserts_ten_rows_witness :
    (∀ i : Nat, 10 ≤ (fun _ : Nat => (42 : ℚ)) i ∧ (fun _ : Nat => (42 : ℚ)) i ≤ 500)
    ∧ (create_database_and_table_seeding [] (fun _ => (42 : ℚ)) 0).1.length = 10
    ∧ (create_database_and_table_seeding [] (fun _ => (42 : ℚ)) 0).2.count
        SeedEv.commit = 1 := by
  have hu : ∀ i : Nat, 10 ≤ (fun _ : Nat => (42 : ℚ)) i
      ∧ (fun _ : Nat => (42 : ℚ)) i ≤ 500 :=
    fun i => ⟨by norm_num, by norm_num⟩
  obtain ⟨-, h2, -, -, -, -, -, h8, -, -⟩ :=
    c1_seeding_inserts_ten_rows [] (fun _ => (42 : ℚ)) 0 hu
  exact ⟨hu, h2, h8⟩

/-! ## Readiness polling

Embeds `wait_for_instance_ready(project_id, instance_name, max_wait=600)`
(`src/mysql/init_mysql.py:70-86`): describe the instance, return `True` when
the observed state is `"RUNNABLE"`, otherwise sleep 10 seconds and retry while
the elapsed time is below `max_wait`.  The describe call is modelled as
instantaneous and `time.sleep(10)` as advancing the clock by exactly 10, so
the elapsed time at the start of attempt `k` is `10 * k`. -/

inductive PollEv
  | describe (k : Nat)
  | sleep10
deriving DecidableEq

/-- The loop of `wait_for_instance_ready` from attempt `k` on.  `states k` is
the state string the `k`-th describe observes; the `while` guard is the
source's `time.time() - start_time < max_wait` with the elapsed time `10 * k`
and `max_wait = 600`.  `fuel` bounds the recursion (61 always suffices).
Returns the event trace together with `some k` when the poll returned `True`
at attempt `k`, and `none` for the `TimeoutError`. -/
def waitFrom (states : Nat → String) : Nat → Nat → List PollEv × Option Nat
  | _, 0 => ([], none)
  | k, fuel + 1 =>
    if 10 * k < 600 then
      if states k = "RUNNABLE" then ([PollEv.describe k], some k)
      else
        let r := waitFrom states (k + 1) fuel
        (PollEv.describe k :: PollEv.sleep10 :: r.1, r.2)
    else ([], none)

/-- `wait_for_instance_ready` itself: start at elapsed time 0. -/
def wait_for_instance_ready (states : Nat → String) : List PollEv × Option Nat :=
  waitFrom states 0 61

/-- The trace of `m` failed poll attempts starting at attempt `k`: each
describe followed by one 10-second sleep. -/
def pollTrace : Nat → Nat → List PollEv
  | _, 0 => []
  | k, m + 1 => PollEv.describe k :: PollEv.sleep10 :: pollTrace (k + 1) m

lemma waitFrom_timeout (states : Nat → String) :
    ∀ fuel k, 60 ≤ k + fuel →
      (∀ j, k ≤ j → j < 60 → states j ≠ "RUNNABLE") →
      waitFrom states k fuel = (pollTrace k (60 - k), none) := by
  intro fuel
  induction fuel with
  | zero =>
      intro k hk _
      have h60 : 60 ≤ k := by omega
      have : 60 - k = 0 := by omega
      rw [this]
      rfl
  | succ fuel ih =>
      intro k hk hall
      by_cases hguard : 10 * k < 600
      · have hklt : k < 60 := by omega
        rw [waitFrom, if_pos hguard, if_neg (hall k le_rfl hklt)]
        rw [ih (k + 1) (by omega) (fun j hj hj60 => hall j (by omega) hj60)]
        have hm : 60 - k = (60 - (k + 1)) + 1 := by omega
        rw [hm]
        rfl
      · have h60 : 60 ≤ k := by omega
        rw [waitFrom, if_neg hguard]
        have : 60 - k = 0 := by omega
        rw [this]
        rfl

lemma waitFrom_found (states : Nat → String) :
    ∀ fuel k j, 60 ≤ k + fuel → k ≤ j → j < 60 → states j = "RUNNABLE" →
      (∀ i, k ≤ i → i < j → states i ≠ "RUNNABLE") →
      waitFrom states k fuel =
        (pollTrace k (j - k) ++ [PollEv.describe j], some j) := by
  intro fuel
  induction fuel with
  | zero =>
      intro k j hk hkj hj _ _
      omega
  | succ fuel ih =>
      intro k j hk hkj hj hrun hmin
      have hklt : k < 60 := by omega
      have hguard : 10 * k < 600 := by omega
      rcases Nat.eq_or_lt_of_le hkj with rfl | hlt
      · rw [waitFrom, if_pos hguard, if_pos hrun]
        have : k - k = 0 := by omega
        rw [this]
        rfl
      · rw [waitFrom, if_pos hguard, if_neg (hmin k le_rfl hlt)]
        rw [ih (k + 1) j (by omega) hlt hj hrun
          (fun i hi hij => hmin i (by omega) hij)]
        have hm : j - k = (j - (k + 1)) + 1 := by omega
        rw [hm]
        rfl

/-- **C4.** The readiness poll observes the state at a fixed 10-second
cadence (each describe in the trace is followed by one 10-second sleep, as
`pollTrace` records), returns success at the first attempt that observes
`"RUNNABLE"`, and raises the timeout error (`none`) if and only if none of
the 60 attempts that fit into the 600-second budget observes `"RUNNABLE"`. -/
theorem c4_wait_for_instance_ready_poll (states : Nat → String) :
    ((∀ k, k < 60 → states k ≠ "RUNNABLE") →
        wait_for_instance_ready states = (pollTrace 0 60, none))
    ∧ (∀ j, j < 60 → states j = "RUNNABLE" →
        (∀ i, i < j → states i ≠ "RUNNABLE") →
        wait_for_instance_ready states =
          (pollTrace 0 j ++ [PollEv.describe j], some j))
    ∧ ((wait_for_instance_ready states).2 = none ↔
        ∀ k, k < 60 → states k ≠ "RUNNABLE") := by
  have hfound : ∀ j, j < 60 → states j = "RUNNABLE" →
      (∀ i, i < j → states i ≠ "RUNNABLE") →
      wait_for_instance_ready states =
        (pollTrace 0 j ++ [PollEv.describe j], some j) := by
    intro j hj hrun hmin
    exact waitFrom_found states 61 0 j (by omega) (Nat.zero_le j) hj hrun
      (fun i _ hij => hmin i hij)
  refine ⟨?_, hfound, ?_, ?_⟩
  · intro hall
    exact waitFrom_timeout states 61 0 (by omega) (fun j _ hj => hall j hj)
  · intro hnone
    by_contra hcon
    push_neg at hcon
    obtain ⟨k, hk, hrunk⟩ := hcon
    have hP : ∃ n, n < 60 ∧ states n = "RUNNABLE" := ⟨k, hk, hrunk⟩
    have hspec := Nat.find_spec hP
    have hsome := hfound (Nat.find hP) hspec.1 hspec.2 (fun i hi => by
      intro hrun
      exact Nat.find_min hP hi ⟨Nat.lt_trans hi hspec.1, hrun⟩)
    rw [hsome] at hnone
    exact Option.noConfusion hnone
  · intro hall
    rw [show wait_for_instance_ready states = waitFrom states 0 61 from rfl,
      waitFrom_timeout states 61 0 (by omega) (fun j _ hj => hall j hj)]

/-- Concrete instantiation of `c4_wait_for_instance_ready_poll`: an instance
that reports `"RUNNABLE"` at once is accepted at the first describe. -/
theorem c4_wait_for_instance_ready_poll_witness :
    ((0 : Nat) < 60 ∧ (fun _ : Nat => "RUNNABLE") 0 = "RUNNABLE"
        ∧ (∀ i : Nat, i < 0 → (fun _ : Nat => "RUNNABLE") i ≠ "RUNNABLE"))
    ∧ wait_for_instance_ready (fun _ => "RUNNABLE") =
        (pollTrace 0 0 ++ [PollEv.describe 0], some 0) := by
  refine ⟨⟨by norm_num, rfl, fun i hi => absurd hi (by omega)⟩, ?_⟩
  exact (c4_wait_for_instance_ready_poll (fun _ => "RUNNABLE")).2.1 0
    (by norm_num) rfl (fun i hi => absurd hi (by omega))

/-! ## Connection retries before seeding

Embeds the connection-retry loop at the start of `create_database_and_table`
(`src/mysql/init_mysql.py:194-213`): `max_retries = 10`, `retry_delay = 10`;
`for attempt in range(max_retries)`: try to connect and break on success; on a
`MySQLError`, sleep `retry_delay` seconds and continue when
`attempt < max_retries - 1`, otherwise re-raise the error. -/

inductive ConnEv
  | tryConnect (k : Nat)
  | sleep10
deriving DecidableEq

/-- `true` exactly on connection attempts. -/
def ConnEv.isTry : ConnEv → Bool
  | .tryConnect _ => true
  | _ => false

/-- The retry loop from attempt `attempt` on.  `outcome k` is the oracle for
the `k`-th `mysql.connector.connect` call: `.ok ()` for a connection,
`.error e` for a raised `MySQLError` with message `e`.  `fuel` bounds the
recursion (10 always suffices).  Returns the event trace and either `.ok k`
(connected at attempt `k`) or `.error e` (the re-raised final error). -/
def connectFrom (outcome : Nat → Except String Unit) :
    Nat → Nat → List ConnEv × Except String Nat
  | _, 0 => ([], Except.error "")
  | attempt, fuel + 1 =>
    match outcome attempt with
    | Except.ok _ => ([ConnEv.tryConnect attempt], Except.ok attempt)
    | Except.error e =>
      if attempt < 10 - 1 then
        let r := connectFrom outcome (attempt + 1) fuel
        (ConnEv.tryConnect attempt :: ConnEv.sleep10 :: r.1, r.2)
      else ([ConnEv.tryConnect attempt], Except.error e)

/-- The whole retry loop: `for attempt in range(10)`. -/
def connectWithRetries (outcome : Nat → Except String Unit) :
    List ConnEv × Except String Nat :=
  connectFrom outcome 0 10

/-- The trace of `m` failed connection attempts starting at attempt `k`:
each attempt followed by one 10-second sleep. -/
def connTrace : Nat → Nat → List ConnEv
  | _, 0 => []
  | k, m + 1 => ConnEv.tryConnect k :: ConnEv.sleep10 :: connTrace (k + 1) m

lemma connectFrom_step_ok {outcome : Nat → Except String Unit} {k fuel : Nat}
    (h : outcome k = Except.ok ()) :
    connectFrom outcome k (fuel + 1) = ([ConnEv.tryConnect k], Except.ok k) := by
  rw [connectFrom, h]

lemma connectFrom_step_error {outcome : Nat → Except String Unit} {k fuel : Nat}
    {e : String} (he : outcome k = Except.error e) (hk : k < 10 - 1) :
    connectFrom outcome k (fuel + 1) =
      (ConnEv.tryConnect k :: ConnEv.sleep10 :: (connectFrom outcome (k + 1) fuel).1,
       (connectFrom outcome (k + 1) fuel).2) := by
  rw [connectFrom, he]
  simp [hk]

lemma connectFrom_fail_last {outcome : Nat → Except String Unit} {k fuel : Nat}
    {e : String} (he : outcome k = Except.error e) (hk : ¬k < 10 - 1) :
    connectFrom outcome k (fuel + 1) = ([ConnEv.tryConnect k], Except.error e) := by
  rw [connectFrom, he]
  simp [hk]

lemma connectFrom_success (outcome : Nat → Except String Unit) :
    ∀ fuel k j, 10 ≤ k + fuel → k ≤ j → j < 10 →
      outcome j = Except.ok () →
      (∀ i, k ≤ i → i < j → ∃ e, outcome i = Except.error e) →
      connectFrom outcome k fuel =
        (connTrace k (j - k) ++ [ConnEv.tryConnect j], Except.ok j) := by
  intro fuel
  induction fuel with
  | zero =>
      intro k j hk hkj hj _ _
      omega
  | succ fuel ih =>
      intro k j hk hkj hj hok hfail
      rcases Nat.eq_or_lt_of_le hkj with rfl | hlt
      · rw [connectFrom_step_ok hok]
        have : k - k = 0 := by omega
        rw [this]
        rfl
      · obtain ⟨e, he⟩ := hfail k le_rfl hlt
        have hk9 : k < 10 - 1 := by omega
        rw [connectFrom_step_error he hk9,
          ih (k + 1) j (by omega) hlt hj hok (fun i hi hij => hfail i (by omega) hij)]
        have hm : j - k = (j - (k + 1)) + 1 := by omega
        rw [hm]
        rfl

lemma connectFrom_allFail (outcome : Nat → Except String Unit)
    (errs : Nat → String) :
    ∀ fuel k, 10 ≤ k + fuel → k < 10 →
      (∀ i, k ≤ i → i < 10 → outcome i = Except.error (errs i)) →
      connectFrom outcome k fuel =
        (connTrace k (9 - k) ++ [ConnEv.tryConnect 9], Except.error (errs 9)) := by
  intro fuel
  induction fuel with
  | zero =>
      intro k hk hk10 _
      omega
  | succ fuel ih =>
      intro k hk hk10 hall
      have he := hall k le_rfl hk10
      by_cases hk9 : k < 10 - 1
      · rw [connectFrom_step_error he hk9,
          ih (k + 1) (by omega) (by omega) (fun i hi hij => hall i (by omega) hij)]
        have hm : 9 - k = (9 - (k + 1)) + 1 := by omega
        rw [hm]
        rfl
      · have hk9' : k = 9 := by omega
        subst hk9'
        rw [connectFrom_fail_last he hk9]
        rfl

lemma connectFrom_attempts_le (outcome : Nat → Except String Unit) :
    ∀ fuel k, ((connectFrom outcome k fuel).1.filter ConnEv.isTry).length ≤ fuel := by
  intro fuel
  induction fuel with
  | zero => intro k; simp [connectFrom]
  | succ fuel ih =>
      intro k
      cases houtcome : outcome k with
      | ok u =>
          cases u
          rw [connectFrom_step_ok houtcome]
          simp [ConnEv.isTry]
      | error e =>
          by_cases hk9 : k < 10 - 1
          · rw [connectFrom_step_error houtcome hk9]
            simp only [List.filter_cons]
            rw [if_pos (show ConnEv.isTry (ConnEv.tryConnect k) = true from rfl),
              if_neg (show ¬ConnEv.isTry ConnEv.sleep10 = true from by decide)]
            simpa using ih (k + 1)
          · rw [connectFrom_fail_last houtcome hk9]
            simp [ConnEv.isTry]

/-- **C6.** The seeding connection loop makes at most 10 connection attempts;
when the first `j` attempts fail and attempt `j` (`j < 10`) succeeds, it
proceeds immediately after attempt `j` with a 10-second sleep between each
pair of consecutive failed attempts (as `connTrace` records); and when all 10
attempts fail it re-raises the error of the 10th attempt (index 9) after
exactly 10 attempts and 9 intervening sleeps. -/
theorem c6_connection_retry_loop (outcome : Nat → Except String Unit)
    (errs : Nat → String) :
    (∀ j, j < 10 → outcome j = Except.ok () →
        (∀ i, i < j → ∃ e, outcome i = Except.error e) →
        connectWithRetries outcome =
          (connTrace 0 j ++ [ConnEv.tryConnect j], Except.ok j))
    ∧ ((∀ i, i < 10 → outcome i = Except.error (errs i)) →
        connectWithRetries outcome =
          (connTrace 0 9 ++ [ConnEv.tryConnect 9], Except.error (errs 9)))
    ∧ ((connectWithRetries outcome).1.filter ConnEv.isTry).length ≤ 10 := by
  refine ⟨?_, ?_, connectFrom_attempts_le outcome 10 0⟩
  · intro j hj hok hfail
    exact connectFrom_success outcome 10 0 j (by omega) (Nat.zero_le j) hj hok
      (fun i _ hij => hfail i hij)
  · intro hall
    exact connectFrom_allFail outcome errs 10 0 (by omega) (by omega)
      (fun i _ hi => hall i hi)

/-- Concrete instantiation of `c6_connection_retry_loop`: a server that
accepts the first connection attempt. -/
theorem c6_connection_retry_loop_witness :
    ((0 : Nat) < 10 ∧ (fun _ : Nat => (Except.ok () : Except String Unit)) 0 =
        Except.ok ()
      ∧ (∀ i : Nat, i < 0 →
          ∃ e, (fun _ : Nat => (Except.ok () : Except String Unit)) i =
            Except.error e))
    ∧ connectWithRetries (fun _ => Except.ok ()) =
        (connTrace 0 0 ++ [ConnEv.tryConnect 0], Except.ok 0) := by
  refine ⟨⟨by norm_num, rfl, fun i hi => absurd hi (by omega)⟩, ?_⟩
  exact (c6_connection_retry_loop (fun _ => Except.ok ()) (fun _ => "")).1 0
    (by norm_num) rfl (fun i hi => absurd hi (by omega))

/-! ## Warehouse initializer

Embeds `create_dataset_if_not_exists` (`src/bigquery/init_bq.py:27-50`) and
`create_table_if_not_exists` (`src/bigquery/init_bq.py:53-104`).  The BigQuery
client is modelled by a world record: whether the `get_dataset` / `get_table`
probe finds the resource (the code catches exactly `NotFound` from the probe),
and the outcome of the creation call when one is issued. -/

/-- Events issued against the BigQuery client. -/
inductive BqEv
  | getDataset
  | createDataset
  | getTable
  | queryCreateTable
deriving DecidableEq

/-- Outcome of `client.create_dataset`: success, a `Conflict` exception, or
any other exception (with its message). -/
inductive DsOutcome
  | ok
  | conflict
  | fail (msg : String)
deriving DecidableEq

/-- The world `create_dataset_if_not_exists` runs against. -/
structure DatasetWorld where
  datasetExists : Bool
  createOutcome : DsOutcome
deriving DecidableEq

/-- `create_dataset_if_not_exists(client, project_id, dataset_id, location)`:
if `get_dataset` succeeds, return `True`; on `NotFound`, call
`create_dataset` and return `True`, also when it raises `Conflict`; any other
exception propagates.  Returns the trace of client calls and either
`.ok true` or the propagated error message. -/
def create_dataset_if_not_exists (w : DatasetWorld) :
    List BqEv × Except String Bool :=
  if w.datasetExists then ([BqEv.getDataset], Except.ok true)
  else
    match w.createOutcome with
    | DsOutcome.ok => ([BqEv.getDataset, BqEv.createDataset], Except.ok true)
    | DsOutcome.conflict => ([BqEv.getDataset, BqEv.createDataset], Except.ok true)
    | DsOutcome.fail msg => ([BqEv.getDataset, BqEv.createDataset], Except.error msg)

/-- `needle` starts `hay` (Python `str.startswith` over char lists). -/
def startsWithChars : List Char → List Char → Bool
  | [], _ => true
  | _ :: _, [] => false
  | a :: as, b :: bs => a == b && startsWithChars as bs

/-- Helper for Python's `needle in hay` substring test. -/
def hasSubChars (needle : List Char) : List Char → Bool
  | [] => needle.isEmpty
  | b :: bs => startsWithChars needle (b :: bs) || hasSubChars needle bs

/-- Python's `needle in hay` on strings. -/
def strContains (hay needle : String) : Bool := hasSubChars needle.data hay.data

/-- The world `create_table_if_not_exists` runs against:
whether `get_table` finds the table, and the outcome of `client.query(ddl)`
followed by `job.result()` when the DDL is issued (`.error msg` models any
raised exception with `str(e) = msg`). -/
structure TableWorld where
  tableExists : Bool
  queryOutcome : Except String Unit

/-- `create_table_if_not_exists(client, project_id, dataset_id, table_id)`:
if `get_table` succeeds, return `True`; on `NotFound`, run the DDL and return
`True`; an exception from the DDL whose text contains `"Already Exists"` is
swallowed and `True` returned; any other exception propagates. -/
def create_table_if_not_exists (w : TableWorld) :
    List BqEv × Except String Bool :=
  if w.tableExists then ([BqEv.getTable], Except.ok true)
  else
    match w.queryOutcome with
    | Except.ok _ => ([BqEv.getTable, BqEv.queryCreateTable], Except.ok true)
    | Except.error msg =>
      if strContains msg "Already Exists" then
        ([BqEv.getTable, BqEv.queryCreateTable], Except.ok true)
      else
        ([BqEv.getTable, BqEv.queryCreateTable], Except.error msg)

/-- **C5.** Dataset and table creation are idempotent: against an existing
resource they return success without issuing any creation call; a
"resource already exists" conflict raised by the creation call itself
(`Conflict` for the dataset, an exception whose text contains
`"Already Exists"` for the table) is treated as success; and any other
creation failure propagates its error to the caller. -/
theorem c5_create_idempotent (w : DatasetWorld) (v : TableWorld) (msg : String) :
    (w.datasetExists = true →
        create_dataset_if_not_exists w = ([BqEv.getDataset], Except.ok true)
        ∧ BqEv.createDataset ∉ (create_dataset_if_not_exists w).1)
    ∧ (w.datasetExists = false → w.createOutcome = DsOutcome.conflict →
        (create_dataset_if_not_exists w).2 = Except.ok true)
    ∧ (w.datasetExists = false → w.createOutcome = DsOutcome.fail msg →
        (create_dataset_if_not_exists w).2 = Except.error msg)
    ∧ (v.tableExists = true →
        create_table_if_not_exists v = ([BqEv.getTable], Except.ok true)
        ∧ BqEv.queryCreateTable ∉ (create_table_if_not_exists v).1)
    ∧ (v.tableExists = false → v.queryOutcome = Except.error msg →
        strContains msg "Already Exists" = true →
        (create_table_if_not_exists v).2 = Except.ok true)
    ∧ (v.tableExists = false → v.queryOutcome = Except.error msg →
        strContains msg "Already Exists" = false →
        (create_table_if_not_exists v).2 = Except.error msg) := by
  refine ⟨?_, ?_, ?_, ?_, ?_, ?_⟩
  · intro hex
    constructor
    · simp [create_dataset_if_not_exists, hex]
    · simp [create_dataset_if_not_exists, hex]
  · intro hex hco
    simp [create_dataset_if_not_exists, hex, hco]
  · intro hex hco
    simp [create_dataset_if_not_exists, hex, hco]
  · intro hex
    constructor
    · simp [create_table_if_not_exists, hex]
    · simp [create_table_if_not_exists, hex]
  · intro hex hq hsub
    simp [create_table_if_not_exists, hex, hq, hsub]
  · intro hex hq hsub
    simp [create_table_if_not_exists, hex, hq, hsub]

/-- Concrete instantiation of `c5_create_idempotent`: both resources already
exist; the conflict branches are exercised on the non-existing world with a
conflict outcome. -/
theorem c5_create_idempotent_witness :
    ((DatasetWorld.mk true DsOutcome.ok).datasetExists = true
      ∧ (TableWorld.mk false (Except.error "Already Exists: Table t")).tableExists
          = false
      ∧ (TableWorld.mk false (Except.error "Already Exists: Table t")).queryOutcome
          = Except.error "Already Exists: Table t"
      ∧ strContains "Already Exists: Table t" "Already Exists" = true)
    ∧ (create_dataset_if_not_exists (DatasetWorld.mk true DsOutcome.ok) =
          ([BqEv.getDataset], Except.ok true)
        ∧ BqEv.createDataset ∉
            (create_dataset_if_not_exists (DatasetWorld.mk true DsOutcome.ok)).1)
    ∧ (create_table_if_not_exists
          (TableWorld.mk false (Except.error "Already Exists: Table t"))).2 =
        Except.ok true := by
  refine ⟨⟨rfl, rfl, rfl, by decide⟩, ?_, ?_⟩
  · exact (c5_create_idempotent (DatasetWorld.mk true DsOutcome.ok)
      (TableWorld.mk false (Except.error "Already Exists: Table t"))
      "Already Exists: Table t").1 rfl
  · exact (c5_create_idempotent (DatasetWorld.mk true DsOutcome.ok)
      (TableWorld.mk false (Except.error "Already Exists: Table t"))
      "Already Exists: Table t").2.2.2.2.1 rfl rfl (by decide)

/-! ## The continuous mutation loop

Embeds the `while running:` loop and surrounding `try/except MySQLError/
finally` of the mutation driver's `main` (`src/mysql/update_mysql.py:159-189`)
together with the `__main__` wrapper (`src/mysql/update_mysql.py:192-197`).
`flag k` is the value of the global `running` read at the `k`-th loop check
(the signal handlers only ever set it to `False`); `outcome k` is the oracle
for the `k`-th body execution: `.ok ()` when `update_random_record` and the
sleep complete, `.error e` when a Python exception `e` is raised in the body.
A `MySQLError` is caught by the `except` clause; any other exception escapes
`main` and is caught by the `__main__` handler, which exits with status 1. -/

/-- `signal_handler(signum, frame)` from `src/mysql/update_mysql.py:27-31`:
whatever the current value of `running`, set it to `False`. -/
def signal_handler (signum : Nat) (running : Bool) : Bool :=
  false

/-- A Python exception as seen by the driver's handlers: a `MySQLError` or
any other exception. -/
inductive PyErr
  | mysql (msg : String)
  | other (msg : String)
deriving DecidableEq

/-- Events of one run of the mutation driver's loop and cleanup. -/
inductive MutEv
  | mutate (k : Nat)
  | sleepRand
  | closeCursor
  | closeConn
deriving DecidableEq

/-- The `while running:` loop from check `k` on: if the flag is down, exit the
loop normally; otherwise run the body (one `update_random_record` plus the
random sleep); an exception in the body aborts the loop carrying the error.
Returns `none` when `fuel` is exhausted before the loop ends, otherwise the
body events and the escaped exception, if any. -/
def mutLoop (flag : Nat → Bool) (outcome : Nat → Except PyErr Unit) :
    Nat → Nat → Option (List MutEv × Option PyErr)
  | _, 0 => none
  | k, fuel + 1 =>
    if flag k then
      match outcome k with
      | Except.error e => some ([], some e)
      | Except.ok _ =>
        match mutLoop flag outcome (k + 1) fuel with
        | none => none
        | some (tr, r) => some (MutEv.mutate k :: MutEv.sleepRand :: tr, r)
    else some ([], none)

/-- `main` of the mutation driver from the start of the loop on, plus the
`__main__` wrapper: run the loop, release the cursor and the connection in the
`finally` block, swallow a `MySQLError` (printing it), and exit 0 — or let any
other exception escape to the `__main__` handler, which exits 1.  Returns the
event trace and the process exit status. -/
def mutationMain (flag : Nat → Bool) (outcome : Nat → Except PyErr Unit)
    (fuel : Nat) : Option (List MutEv × Nat) :=
  match mutLoop flag outcome 0 fuel with
  | none => none
  | some (tr, none) => some (tr ++ [MutEv.closeCursor, MutEv.closeConn], 0)
  | some (tr, some (PyErr.mysql _)) =>
      some (tr ++ [MutEv.closeCursor, MutEv.closeConn], 0)
  | some (tr, some (PyErr.other _)) =>
      some (tr ++ [MutEv.closeCursor, MutEv.closeConn], 1)

/-- The trace of `m` completed loop iterations starting at check `k`. -/
def mutTrace : Nat → Nat → List MutEv
  | _, 0 => []
  | k, m + 1 => MutEv.mutate k :: MutEv.sleepRand :: mutTrace (k + 1) m

lemma mutLoop_step_stop {flag : Nat → Bool} {outcome : Nat → Except PyErr Unit}
    {k fuel : Nat} (h : flag k = false) :
    mutLoop flag outcome k (fuel + 1) = some ([], none) := by
  rw [mutLoop, if_neg (by simp [h])]

lemma mutLoop_step_error {flag : Nat → Bool} {outcome : Nat → Except PyErr Unit}
    {k fuel : Nat} {e : PyErr} (hf : flag k = true)
    (he : outcome k = Except.error e) :
    mutLoop flag outcome k (fuel + 1) = some ([], some e) := by
  rw [mutLoop, if_pos hf, he]

lemma mutLoop_step_ok {flag : Nat → Bool} {outcome : Nat → Except PyErr Unit}
    {k fuel : Nat} (hf : flag k = true) (ho : outcome k = Except.ok ()) :
    mutLoop flag outcome k (fuel + 1) =
      match mutLoop flag outcome (k + 1) fuel with
      | none => none
      | some (tr, r) => some (MutEv.mutate k :: MutEv.sleepRand :: tr, r) := by
  rw [mutLoop, if_pos hf, ho]

lemma mutLoop_stops (flag : Nat → Bool) (outcome : Nat → Except PyErr Unit) :
    ∀ m k fuel, m < fuel → (∀ j, j < m → flag (k + j) = true) →
      flag (k + m) = false → (∀ j, outcome j = Except.ok ()) →
      mutLoop flag outcome k fuel = some (mutTrace k m, none) := by
  intro m
  induction m with
  | zero =>
      intro k fuel hfuel _ hstop _
      obtain ⟨fuel', rfl⟩ : ∃ fuel', fuel = fuel' + 1 :=
        ⟨fuel - 1, by omega⟩
      exact mutLoop_step_stop hstop
  | succ m ih =>
      intro k fuel hfuel hrun hstop hok
      obtain ⟨fuel', rfl⟩ : ∃ fuel', fuel = fuel' + 1 :=
        ⟨fuel - 1, by omega⟩
      have hf0 : flag k = true := hrun 0 (by omega)
      have hrun' : ∀ j, j < m → flag (k + 1 + j) = true := by
        intro j hj
        have h := hrun (j + 1) (by omega)
        rwa [show k + (j + 1) = k + 1 + j by omega] at h
      have hstop' : flag (k + 1 + m) = false := by
        rwa [show k + (m + 1) = k + 1 + m by omega] at hstop
      rw [mutLoop_step_ok hf0 (hok k),
        ih (k + 1) fuel' (by omega) hrun' hstop' hok]
      rfl

lemma mutLoop_error (flag : Nat → Bool) (outcome : Nat → Except PyErr Unit)
    (e : PyErr) :
    ∀ m k fuel, m < fuel → (∀ j, j ≤ m → flag (k + j) = true) →
      (∀ j, j < m → outcome (k + j) = Except.ok ()) →
      outcome (k + m) = Except.error e →
      mutLoop flag outcome k fuel = some (mutTrace k m, some e) := by
  intro m
  induction m with
  | zero =>
      intro k fuel hfuel hrun _ herr
      obtain ⟨fuel', rfl⟩ : ∃ fuel', fuel = fuel' + 1 :=
        ⟨fuel - 1, by omega⟩
      exact mutLoop_step_error (hrun 0 (by omega)) herr
  | succ m ih =>
      intro k fuel hfuel hrun hok herr
      obtain ⟨fuel', rfl⟩ : ∃ fuel', fuel = fuel' + 1 :=
        ⟨fuel - 1, by omega⟩
      have hf0 : flag k = true := hrun 0 (by omega)
      have hrun' : ∀ j, j ≤ m → flag (k + 1 + j) = true := by
        intro j hj
        have h := hrun (j + 1) (by omega)
        rwa [show k + (j + 1) = k + 1 + j by omega] at h
      have hok' : ∀ j, j < m → outcome (k + 1 + j) = Except.ok () := by
        intro j hj
        have h := hok (j + 1) (by omega)
        rwa [show k + (j + 1) = k + 1 + j by omega] at h
      have herr' : outcome (k + 1 + m) = Except.error e := by
        rwa [show k + (m + 1) = k + 1 + m by omega] at herr
      rw [mutLoop_step_ok hf0 (hok 0 (by omega)),
        ih (k + 1) fuel' (by omega) hrun' hok' herr']
      rfl

/-- **C8.** Once the running flag is permanently false from check `n` on — as
the signal handlers set it — the mutation loop performs exactly the `n`
iterations whose checks saw the flag up and no further mutation step, then the
cursor and the connection are released, in that order, as the final events
before the process exits with status 0. -/
theorem c8_graceful_shutdown (flag : Nat → Bool)
    (outcome : Nat → Except PyErr Unit) (n fuel : Nat)
    (hfuel : n < fuel)
    (hrun : ∀ j, j < n → flag j = true)
    (hstop : ∀ j, n ≤ j → flag j = signal_handler 2 (flag j))
    (hok : ∀ j, outcome j = Except.ok ()) :
    mutationMain flag outcome fuel =
      some (mutTrace 0 n ++ [MutEv.closeCursor, MutEv.closeConn], 0) := by
  have hstop' : flag (0 + n) = false := by
    rw [Nat.zero_add]
    exact hstop n le_rfl
  rw [mutationMain,
    mutLoop_stops flag outcome n 0 fuel hfuel
      (fun j hj => by rw [Nat.zero_add]; exact hrun j hj) hstop' hok]

/-- Concrete instantiation of `c8_graceful_shutdown`: the flag goes down at
check 2, so exactly two mutation steps happen and the run exits 0 after
closing the cursor and the connection. -/
theorem c8_graceful_shutdown_witness :
    (2 < 5 ∧ (∀ j, j < 2 → (fun k => decide (k < 2)) j = true)
      ∧ (∀ j : Nat, 2 ≤ j → (fun k => decide (k < 2)) j =
          signal_handler 2 ((fun k => decide (k < 2)) j))
      ∧ (∀ j : Nat, (fun _ : Nat => (Except.ok () : Except PyErr Unit)) j =
          Except.ok ()))
    ∧ mutationMain (fun k => decide (k < 2)) (fun _ => Except.ok ()) 5 =
        some (mutTrace 0 2 ++ [MutEv.closeCursor, MutEv.closeConn], 0) := by
  refine ⟨⟨by omega, ?_, ?_, fun j => rfl⟩, ?_⟩
  · intro j hj
    simpa using hj
  · intro j hj
    simp [signal_handler]
    omega
  · exact c8_graceful_shutdown (fun k => decide (k < 2)) (fun _ => Except.ok ())
      2 5 (by omega) (fun j hj => by simpa using hj)
      (fun j hj => by simp [signal_handler]; omega) (fun j => rfl)

/-- **C9 (corrected).** When a `MySQLError` is raised during iteration `m` of
the mutation loop (the flag still up and all earlier iterations clean), the
loop terminates at once — exactly the `m` earlier mutation steps happened, no
retry —, the cursor and the connection are released, and the process exits
with status **0**: the `except MySQLError` clause inside `main` swallows the
error, so the `__main__` handler that would exit 1 never sees it. -/
theorem c9_mysql_error_terminates_loop (flag : Nat → Bool)
    (outcome : Nat → Except PyErr Unit) (m fuel : Nat) (msg : String)
    (hfuel : m < fuel)
    (hrun : ∀ j, j ≤ m → flag j = true)
    (hok : ∀ j, j < m → outcome j = Except.ok ())
    (herr : outcome m = Except.error (PyErr.mysql msg)) :
    mutationMain flag outcome fuel =
      some (mutTrace 0 m ++ [MutEv.closeCursor, MutEv.closeConn], 0) := by
  rw [mutationMain,
    mutLoop_error flag outcome (PyErr.mysql msg) m 0 fuel hfuel
      (fun j hj => by rw [Nat.zero_add]; exact hrun j hj)
      (fun j hj => by rw [Nat.zero_add]; exact hok j hj)
      (by rw [Nat.zero_add]; exact herr)]

/-- **C9 counterexample to the claim as stated.** A connection error at the
very first iteration: the loop terminates without retry and the cursor and
connection are released, but the mutation driver process exits with status
**0**, not 1 — refuting "exits with status 1". -/
theorem c9_exit_status_counterexample :
    mutationMain (fun _ => true)
        (fun _ => Except.error (PyErr.mysql "2013: Lost connection")) 1 =
      some ([MutEv.closeCursor, MutEv.closeConn], 0) := by
  rfl

/-- Concrete instantiation of `c9_mysql_error_terminates_loop`: one clean
iteration, then a `MySQLError` at iteration 1. -/
theorem c9_mysql_error_terminates_loop_witness :
    (1 < 4 ∧ (∀ j : Nat, j ≤ 1 → (fun _ : Nat => true) j = true)
      ∧ (∀ j, j < 1 →
          (fun k => if k < 1 then (Except.ok () : Except PyErr Unit)
            else Except.error (PyErr.mysql "gone")) j = Except.ok ())
      ∧ (fun k => if k < 1 then (Except.ok () : Except PyErr Unit)
          else Except.error (PyErr.mysql "gone")) 1 =
            Except.error (PyErr.mysql "gone"))
    ∧ mutationMain (fun _ => true)
        (fun k => if k < 1 then (Except.ok () : Except PyErr Unit)
          else Except.error (PyErr.mysql "gone")) 4 =
        some (mutTrace 0 1 ++ [MutEv.closeCursor, MutEv.closeConn], 0) := by
  refine ⟨⟨by omega, fun j _ => rfl, ?_, by norm_num⟩, ?_⟩
  · intro j hj
    simp [hj]
  · exact c9_mysql_error_terminates_loop (fun _ => true)
      (fun k => if k < 1 then (Except.ok () : Except PyErr Unit)
        else Except.error (PyErr.mysql "gone")) 1 4 "gone" (by omega)
      (fun j _ => rfl) (fun j hj => by simp [hj]) (by norm_num)

/-! ## Required settings keys and fail-fast behaviour

Each program reads `conf.yml` keys lazily via `config[...][...]` subscripts;
a missing key raises `KeyError` at the point of use, which each program's
top-level `except Exception` handler turns into `sys.exit(1)`.  The happy-path
control flow of each `main` is embedded as an ordered action script — key
reads, cloud-CLI subprocess calls, network calls, and local file operations,
in source order, assuming all external calls succeed (for the provisioner:
the instance does not yet exist and the first connection attempt succeeds). -/

/-- The required settings keys of `conf.yml`. -/
inductive CKey
  | gcpServiceAccountPath
  | gcpProjectId
  | gcpRegion
  | mysqlInstanceName
  | mysqlTier
  | mysqlVersion
  | mysqlDbName
  | mysqlTableName
  | mysqlRootUser
  | bqDataset
  | bqTableName
  | bqLocation
deriving DecidableEq

/-- One observable step of a program's happy-path action script. -/
inductive ProgAct
  | readKey (k : CKey)
  | cliCall
  | netCall
  | fileAct
deriving DecidableEq

/-- Run an action script against a settings mapping (`cfg k` says whether
required key `k` is present).  A `readKey` of a missing key raises `KeyError`:
execution stops there and later actions are not performed.  Returns the
actions actually performed and `some k` when a `KeyError` on `k` aborted the
program. -/
def runScript (cfg : CKey → Bool) : List ProgAct → List ProgAct × Option CKey
  | [] => ([], none)
  | ProgAct.readKey k :: rest =>
      if cfg k then
        let r := runScript cfg rest
        (ProgAct.readKey k :: r.1, r.2)
      else ([], some k)
  | a :: rest =>
      let r := runScript cfg rest
      (a :: r.1, r.2)

/-- The process exit status: a `KeyError` reaches the top-level
`except Exception` handler, which exits 1; otherwise the run ends normally. -/
def progExit (r : List ProgAct × Option CKey) : Nat :=
  match r.2 with
  | some _ => 1
  | none => 0

/-- Action script of the warehouse initializer's `main`
(`src/bigquery/init_bq.py:130-175`): service-account path (140) and existence
probe, then project id, dataset, table name and location (149–152), then the
BigQuery calls of `create_dataset_if_not_exists`, `create_table_if_not_exists`
and `verify_table`. -/
def bqScript : List ProgAct :=
  [ProgAct.readKey CKey.gcpServiceAccountPath,
   ProgAct.fileAct,
   ProgAct.readKey CKey.gcpProjectId,
   ProgAct.readKey CKey.bqDataset,
   ProgAct.readKey CKey.bqTableName,
   ProgAct.readKey CKey.bqLocation,
   ProgAct.netCall,
   ProgAct.netCall,
   ProgAct.netCall]

/-- Action script of the provisioner's `main`
(`src/mysql/init_mysql.py:285-338`), instance not yet existing and every
external call succeeding: service-account path (295) and existence probe,
project id (304), `gcloud config set project` (305), the password-file write
(312–315), the key reads of `create_mysql_instance` (103–107), its CLI calls
(existence probe, create, readiness poll, the two patches, second poll, IP
retrieval), the root-user read at the call site (324), the db/table name
reads of `create_database_and_table` (181–182), and the MySQL connection plus
seeding. -/
def initMysqlScript : List ProgAct :=
  [ProgAct.readKey CKey.gcpServiceAccountPath,
   ProgAct.fileAct,
   ProgAct.readKey CKey.gcpProjectId,
   ProgAct.cliCall,
   ProgAct.fileAct,
   ProgAct.readKey CKey.gcpProjectId,
   ProgAct.readKey CKey.gcpRegion,
   ProgAct.readKey CKey.mysqlInstanceName,
   ProgAct.readKey CKey.mysqlTier,
   ProgAct.readKey CKey.mysqlVersion,
   ProgAct.cliCall,
   ProgAct.cliCall,
   ProgAct.cliCall,
   ProgAct.cliCall,
   ProgAct.cliCall,
   ProgAct.cliCall,
   ProgAct.cliCall,
   ProgAct.readKey CKey.mysqlRootUser,
   ProgAct.readKey CKey.mysqlDbName,
   ProgAct.readKey CKey.mysqlTableName,
   ProgAct.netCall]

/-- Action script of the mutation driver's `main`
(`src/mysql/update_mysql.py:103-189`): service-account path (121) and
existence probe, project id (126), instance name (127), the
`get_instance_ip` CLI call (128), the password-file read (131), db name
(134), table name (135), root user (146, argument evaluation of the connect
call), and the MySQL connection plus the loop. -/
def updateMysqlScript : List ProgAct :=
  [ProgAct.readKey CKey.gcpServiceAccountPath,
   ProgAct.fileAct,
   ProgAct.readKey CKey.gcpProjectId,
   ProgAct.readKey CKey.mysqlInstanceName,
   ProgAct.cliCall,
   ProgAct.fileAct,
   ProgAct.readKey CKey.mysqlDbName,
   ProgAct.readKey CKey.mysqlTableName,
   ProgAct.readKey CKey.mysqlRootUser,
   ProgAct.netCall]

lemma runScript_fails_of_missing (cfg : CKey → Bool) :
    ∀ script : List ProgAct, ∀ k, ProgAct.readKey k ∈ script → cfg k = false →
      (runScript cfg script).2.isSome = true := by
  intro script
  induction script with
  | nil =>
      intro k hk _
      simp at hk
  | cons a rest ih =>
      intro k hk hmiss
      cases a with
      | readKey k' =>
          by_cases hk' : cfg k' = true
          · have hkrest : ProgAct.readKey k ∈ rest := by
              rcases List.mem_cons.mp hk with heq | hrest
              · injection heq with h
                rw [h] at hmiss
                rw [hmiss] at hk'
                exact absurd hk' (by simp)
              · exact hrest
            simp only [runScript, hk', if_true]
            exact ih k hkrest hmiss
          · rw [Bool.not_eq_true] at hk'
            simp [runScript, hk']
      | cliCall =>
          have hkrest : ProgAct.readKey k ∈ rest := by
            rcases List.mem_cons.mp hk with heq | hrest
            · exact absurd heq (by simp)
            · exact hrest
          simp only [runScript]
          exact ih k hkrest hmiss
      | netCall =>
          have hkrest : ProgAct.readKey k ∈ rest := by
            rcases List.mem_cons.mp hk with heq | hrest
            · exact absurd heq (by simp)
            · exact hrest
          simp only [runScript]
          exact ih k hkrest hmiss
      | fileAct =>
          have hkrest : ProgAct.readKey k ∈ rest := by
            rcases List.mem_cons.mp hk with heq | hrest
            · exact absurd heq (by simp)
            · exact hrest
          simp only [runScript]
          exact ih k hkrest hmiss

lemma progExit_eq_one {r : List ProgAct × Option CKey}
    (h : r.2.isSome = true) : progExit r = 1 := by
  rcases hr : r.2 with - | k
  · rw [hr] at h
    simp at h
  · rw [progExit, hr]

lemma bq_failfast (cfg : CKey → Bool) (k : CKey)
    (hk : ProgAct.readKey k ∈ bqScript) (hmiss : cfg k = false) :
    ProgAct.cliCall ∉ (runScript cfg bqScript).1
    ∧ ProgAct.netCall ∉ (runScript cfg bqScript).1 := by
  by_cases h1 : cfg CKey.gcpServiceAccountPath = true
  · by_cases h2 : cfg CKey.gcpProjectId = true
    · by_cases h3 : cfg CKey.bqDataset = true
      · by_cases h4 : cfg CKey.bqTableName = true
        · by_cases h5 : cfg CKey.bqLocation = true
          · exfalso
            have hmem : k = CKey.gcpServiceAccountPath ∨ k = CKey.gcpProjectId
                ∨ k = CKey.bqDataset ∨ k = CKey.bqTableName
                ∨ k = CKey.bqLocation := by
              have := hk
              simp only [bqScript, List.mem_cons] at this
              rcases this with h | h | h | h | h | h | h | h | h | h
              all_goals first
                | (injection h with h; tauto)
                | exact absurd h (by simp)
            rcases hmem with rfl | rfl | rfl | rfl | rfl <;> simp_all
          · rw [Bool.not_eq_true] at h5
            constructor <;> simp [bqScript, runScript, h1, h2, h3, h4, h5]
        · rw [Bool.not_eq_true] at h4
          constructor <;> simp [bqScript, runScript, h1, h2, h3, h4]
      · rw [Bool.not_eq_true] at h3
        constructor <;> simp [bqScript, runScript, h1, h2, h3]
    · rw [Bool.not_eq_true] at h2
      constructor <;> simp [bqScript, runScript, h1, h2]
  · rw [Bool.not_eq_true] at h1
    constructor <;> simp [bqScript, runScript, h1]

/-- **C7 (amended).** A settings mapping missing a required key makes each of
the three programs fail with a configuration error (`KeyError`, exit status
1) at the point the key is first read.  For the warehouse initializer every
required key is read before any network or CLI call, so it fails before any
such call; the database provisioner and the mutation driver, however, read
some keys only after CLI calls have been issued, so their failure is not in
general before a CLI call (see the counterexample). -/
theorem c7_missing_key_is_fatal (cfg : CKey → Bool) (k : CKey) :
    (ProgAct.readKey k ∈ bqScript → cfg k = false →
        progExit (runScript cfg bqScript) = 1
        ∧ ProgAct.cliCall ∉ (runScript cfg bqScript).1
        ∧ ProgAct.netCall ∉ (runScript cfg bqScript).1)
    ∧ (ProgAct.readKey k ∈ initMysqlScript → cfg k = false →
        progExit (runScript cfg initMysqlScript) = 1)
    ∧ (ProgAct.readKey k ∈ updateMysqlScript → cfg k = false →
        progExit (runScript cfg updateMysqlScript) = 1) := by
  refine ⟨?_, ?_, ?_⟩
  · intro hk hmiss
    exact ⟨progExit_eq_one (runScript_fails_of_missing cfg bqScript k hk hmiss),
      (bq_failfast cfg k hk hmiss).1, (bq_failfast cfg k hk hmiss).2⟩
  · intro hk hmiss
    exact progExit_eq_one (runScript_fails_of_missing cfg initMysqlScript k hk hmiss)
  · intro hk hmiss
    exact progExit_eq_one (runScript_fails_of_missing cfg updateMysqlScript k hk hmiss)

/-- **C7 counterexample to the claim as stated.** With every key present
except `mysql.db_name`, the mutation driver does abort with the configuration
error — but only after a CLI call (the `gcloud` instance-IP lookup) has
already been attempted, refuting "fails ... before any network or CLI call is
attempted". -/
theorem c7_fail_before_call_counterexample :
    (runScript (fun k => decide (k ≠ CKey.mysqlDbName)) updateMysqlScript).2 =
        some CKey.mysqlDbName
    ∧ ProgAct.cliCall ∈
        (runScript (fun k => decide (k ≠ CKey.mysqlDbName)) updateMysqlScript).1 := by
  decide

/-- Concrete instantiation of `c7_missing_key_is_fatal`: the mutation driver
with `mysql.db_name` missing exits 1. -/
theorem c7_missing_key_is_fatal_witness :
    (ProgAct.readKey CKey.mysqlDbName ∈ updateMysqlScript
      ∧ (fun k => decide (k ≠ CKey.mysqlDbName)) CKey.mysqlDbName = false)
    ∧ progExit (runScript (fun k => decide (k ≠ CKey.mysqlDbName))
        updateMysqlScript) = 1 := by
  refine ⟨⟨by decide, by decide⟩, ?_⟩
  exact (c7_missing_key_is_fatal (fun k => decide (k ≠ CKey.mysqlDbName))
    CKey.mysqlDbName).2.2 (by decide) (by decide)

end Bqcdc
